import Mathlib

/-!
Shallow embedding of the `pixely` library: a CPU-side RGBA framebuffer
(`src/framebuffer.rs`) and the dirty-flag render orchestration of the
`Pixely` wrapper (`src/lib.rs`).  GPU handles are modelled by the data
the code stores in them; GPU side effects are recorded as an explicit
operation log.  `f32` arithmetic in `get_quad_size` is modelled over `ℚ`
(the divisions and products in the claims' concrete test inputs are
exact in `f32`).  A Rust slice-index panic is modelled by `Option`.
-/

/-- One pixel: four unsigned 8-bit channels (`Pixel` in framebuffer.rs).
No arithmetic is performed on channels, so they are carried as `Nat`. -/
structure Pixel where
  red : Nat
  green : Nat
  blue : Nat
  alpha : Nat
deriving DecidableEq, Repr

/-- `Pixel::black()`: `{red: 0, green: 0, blue: 0, alpha: 255}`. -/
def Pixel.black : Pixel :=
  { red := 0, green := 0, blue := 0, alpha := 255 }

/-- The `FrameBuffer` struct of framebuffer.rs: width, height and a dense
boxed slice of pixels. -/
structure FrameBuffer where
  width : Nat
  height : Nat
  pixels : List Pixel
deriving DecidableEq, Repr

/-- `FrameBuffer::new`: `once(black).cycle().take(width * height)` collects
copies of black.  `width * height` is a `usize` product: on a 64-bit
release build it wraps modulo `2^64` (a debug build panics on overflow),
so the wrapped product is the cell count. -/
def FrameBuffer.new (width height : Nat) : FrameBuffer :=
  { width := width, height := height,
    pixels := List.replicate (width * height % 2 ^ 64) Pixel.black }

/-- `FrameBuffer::coord_to_index`: `y * self.width + x`. -/
def FrameBuffer.coord_to_index (fb : FrameBuffer) (x y : Nat) : Nat :=
  y * fb.width + x

/-- `FrameBuffer::set_pixel`: computes `i = coord_to_index(x, y)` and, when
the pixel slice is non-empty, executes `self.pixels[i] = pixel`.  The Rust
slice indexing panics when `i` is out of bounds; that panic is modelled as
`none`. -/
def FrameBuffer.set_pixel (fb : FrameBuffer) (x y : Nat) (pixel : Pixel) :
    Option FrameBuffer :=
  let i := fb.coord_to_index x y
  if fb.pixels.length ≠ 0 then
    if i < fb.pixels.length then
      some { fb with pixels := fb.pixels.set i pixel }
    else
      none
  else
    some fb

/-- The four bytes of one pixel in memory order: the `#[repr(C)]` layout of
`Pixel` is red, green, blue, alpha. -/
def Pixel.bytes (p : Pixel) : List Nat :=
  [p.red, p.green, p.blue, p.alpha]

/-- `FrameBuffer::as_bytes`: `bytemuck::cast_slice` reinterprets the pixel
slice as the channel-interleaved byte sequence. -/
def FrameBuffer.as_bytes (fb : FrameBuffer) : List Nat :=
  fb.pixels.flatMap Pixel.bytes

example : (FrameBuffer.new 2 1).as_bytes = [0, 0, 0, 255, 0, 0, 0, 255] := by
  decide

example : (FrameBuffer.new 1 1).set_pixel 1 0 Pixel.black = none := by
  decide

example :
    (FrameBuffer.new 2 2).set_pixel 2 0 { red := 9, green := 9, blue := 9, alpha := 9 } =
      some { width := 2, height := 2,
             pixels := [Pixel.black, Pixel.black,
                        { red := 9, green := 9, blue := 9, alpha := 9 }, Pixel.black] } := by
  decide

/-! ## The `Pixely` wrapper (src/lib.rs)

The GPU texture is modelled by the dimensions it was created with, the
bind group by a unit marker; pipeline, sampler, bind group layout and the
vertex/index buffer handles are opaque caller-side resources that no
modelled operation reads, so they are omitted from the state.  Effects on
the queue, device and surface are recorded as a `GpuOp` log. -/

/-- Fields of the `Pixely` struct that the library's own logic reads or
writes.  `configWidth`/`configHeight` are the `u32` fields of the
`SurfaceConfiguration`. -/
structure Pixely where
  framebuffer : FrameBuffer
  framebuffer_changed : Bool
  configWidth : Nat
  configHeight : Nat
  surface_changed : Bool
  texture : Option (Nat × Nat)
  bind_group : Option Unit
  vertices_changed : Bool
deriving DecidableEq, Repr

/-- GPU-side effects performed by `Pixely`, in program order. -/
inductive GpuOp where
  | create_texture (width height : Nat)
  | create_bind_group
  | write_texture (bytes : List Nat)
  | configure_surface (width height : Nat)
  | write_vertex_buffer (halfWidth halfHeight : ℚ)
  | submit_draw
  | present
deriving DecidableEq, Repr

/-- Render-time failure: `wgpu::SurfaceError` from
`surface.get_current_texture()`. -/
inductive SurfaceError where
  | acquireFailed
deriving DecidableEq, Repr

/-- The `Result<(), SurfaceError>` returned by `Pixely::render`. -/
inductive RenderResult where
  | ok
  | err (e : SurfaceError)
deriving DecidableEq, Repr

/-- `Pixely::new` (the state-relevant part): the framebuffer is freshly
constructed, the config takes the window dimensions (`as u32` casts
truncate), no texture or bind group exists yet, and all three dirty flags
start `true`. -/
def Pixely.new (bufWidth bufHeight winWidth winHeight : Nat) : Pixely :=
  { framebuffer := FrameBuffer.new bufWidth bufHeight
    framebuffer_changed := true
    configWidth := winWidth % 2 ^ 32
    configHeight := winHeight % 2 ^ 32
    surface_changed := true
    texture := none
    bind_group := none
    vertices_changed := true }

/-- `Pixely::recreate_texture`: creates a texture sized to the framebuffer
and a bind group over its view and the sampler, storing both. -/
def Pixely.recreate_texture (s : Pixely) : Pixely × List GpuOp :=
  ({ s with
      texture := some (s.framebuffer.width, s.framebuffer.height)
      bind_group := some () },
   [GpuOp.create_texture s.framebuffer.width s.framebuffer.height,
    GpuOp.create_bind_group])

/-- `Pixely::reconfigure_surface`: configures the surface with the current
config and clears the surface-changed flag. -/
def Pixely.reconfigure_surface (s : Pixely) : Pixely × List GpuOp :=
  ({ s with surface_changed := false },
   [GpuOp.configure_surface s.configWidth s.configHeight])

/-- `Pixely::upload_texture`: writes the framebuffer's raw bytes into the
texture and clears the content-changed flag. -/
def Pixely.upload_texture (s : Pixely) : Pixely × List GpuOp :=
  ({ s with framebuffer_changed := false },
   [GpuOp.write_texture s.framebuffer.as_bytes])

/-- `Pixely::get_quad_size`, factored over its four numeric inputs.  The
`f32` casts and arithmetic are modelled over `ℚ`. -/
def quadSize (fbWidth fbHeight sfWidth sfHeight : Nat) : ℚ × ℚ :=
  let frame_aspect : ℚ := (fbHeight : ℚ) / (fbWidth : ℚ)
  let width : ℚ := (sfWidth : ℚ)
  let height : ℚ := (sfHeight : ℚ)
  let height_of_width := width * frame_aspect
  let width_of_height := height / frame_aspect
  if height_of_width ≤ height then
    (1, height_of_width / height)
  else
    (width_of_height / width, 1)

/-- `Pixely::get_quad_size` reads the framebuffer dimensions and the
surface config dimensions from `self`. -/
def Pixely.get_quad_size (s : Pixely) : ℚ × ℚ :=
  quadSize s.framebuffer.width s.framebuffer.height s.configWidth s.configHeight

/-- `Pixely::update_vertex_buffer`: recomputes the quad's half-extents,
writes the four vertices and clears the vertices-changed flag.  The
vertex write is logged by the half-extents that determine it. -/
def Pixely.update_vertex_buffer (s : Pixely) : Pixely × List GpuOp :=
  ({ s with vertices_changed := false },
   [GpuOp.write_vertex_buffer s.get_quad_size.1 s.get_quad_size.2])

/-- `Pixely::buffer_mut`: marks the framebuffer contents dirty and hands
out the mutable borrow (the borrow itself is caller-side). -/
def Pixely.buffer_mut (s : Pixely) : Pixely :=
  { s with framebuffer_changed := true }

/-- `Pixely::resize_framebuffer`: drops texture and bind group, marks
vertices and contents dirty, and replaces the framebuffer wholesale. -/
def Pixely.resize_framebuffer (s : Pixely) (width height : Nat) : Pixely :=
  { s with
      texture := none
      bind_group := none
      vertices_changed := true
      framebuffer_changed := true
      framebuffer := FrameBuffer.new width height }

/-- `Pixely::resize_surface`: marks vertices and surface dirty and stores
the new dimensions in the config (`as u32` casts truncate). -/
def Pixely.resize_surface (s : Pixely) (width height : Nat) : Pixely :=
  { s with
      vertices_changed := true
      surface_changed := true
      configWidth := width % 2 ^ 32
      configHeight := height % 2 ^ 32 }

/-- `Pixely::render`: returns `Ok` immediately when either config
dimension is zero; otherwise runs the four flag-gated steps, then
acquires the next surface image (success is the `acquireOk` parameter;
failure propagates via `?` after the flag-gated steps already ran),
records one draw pass, submits and presents. -/
def Pixely.render (s : Pixely) (acquireOk : Bool) :
    Pixely × List GpuOp × RenderResult :=
  if s.configWidth = 0 ∨ s.configHeight = 0 then
    (s, [], RenderResult.ok)
  else
    let texture_recreated := s.texture.isNone
    let r1 := if texture_recreated then s.recreate_texture else (s, [])
    let r2 := if texture_recreated || r1.1.framebuffer_changed then
        r1.1.upload_texture else (r1.1, [])
    let r3 := if r2.1.surface_changed then r2.1.reconfigure_surface else (r2.1, [])
    let r4 := if r3.1.vertices_changed then r3.1.update_vertex_buffer else (r3.1, [])
    let ops := r1.2 ++ r2.2 ++ r3.2 ++ r4.2
    if acquireOk then
      (r4.1, ops ++ [GpuOp.submit_draw, GpuOp.present], RenderResult.ok)
    else
      (r4.1, ops, RenderResult.err SurfaceError.acquireFailed)

example :
    ((Pixely.new 1 1 2 2).render true).2.1 =
      [GpuOp.create_texture 1 1, GpuOp.create_bind_group,
       GpuOp.write_texture [0, 0, 0, 255],
       GpuOp.configure_surface 2 2,
       GpuOp.write_vertex_buffer 1 1,
       GpuOp.submit_draw, GpuOp.present] := by
  norm_num [Pixely.render, Pixely.new, Pixely.recreate_texture, Pixely.upload_texture,
    Pixely.reconfigure_surface, Pixely.update_vertex_buffer, Pixely.get_quad_size,
    quadSize, FrameBuffer.new, FrameBuffer.as_bytes, Pixel.black, Pixel.bytes]

example : ((Pixely.new 1 1 0 5).render true) = (Pixely.new 1 1 0 5, [], RenderResult.ok) := by
  norm_num [Pixely.render, Pixely.new]

/-! ## Helper lemmas -/

/-- The coupling invariant of the spec: the optional texture and the
optional bind group are both absent or both present. -/
def texBindCoupled (s : Pixely) : Prop :=
  s.texture.isSome = s.bind_group.isSome

instance (s : Pixely) : Decidable (texBindCoupled s) := by
  unfold texBindCoupled; infer_instance

/-- `render` behind the zero-size guard: nothing happens and `Ok` is
returned. -/
theorem render_zero (s : Pixely) (ok : Bool)
    (h : s.configWidth = 0 ∨ s.configHeight = 0) :
    s.render ok = (s, [], RenderResult.ok) := by
  unfold Pixely.render
  rw [if_pos h]

/-- The state `render` leaves behind once it gets past the zero-size
guard: a texture is present (created at the framebuffer's dimensions when
it was absent), the bind group was rebuilt alongside a fresh texture, and
all three dirty flags are clear. -/
def renderedState (s : Pixely) : Pixely :=
  { s with
      texture := some (s.texture.getD (s.framebuffer.width, s.framebuffer.height))
      bind_group := if s.texture.isNone then some () else s.bind_group
      framebuffer_changed := false
      surface_changed := false
      vertices_changed := false }

/-- Closed form of `render` when both config dimensions are nonzero:
the resulting state, the GPU operation log and the returned result. -/
theorem render_pos (s : Pixely) (ok : Bool)
    (hw : s.configWidth ≠ 0) (hh : s.configHeight ≠ 0) :
    s.render ok =
      (renderedState s,
       (if s.texture.isNone then
          [GpuOp.create_texture s.framebuffer.width s.framebuffer.height,
           GpuOp.create_bind_group] else []) ++
       (if s.texture.isNone || s.framebuffer_changed then
          [GpuOp.write_texture s.framebuffer.as_bytes] else []) ++
       (if s.surface_changed then
          [GpuOp.configure_surface s.configWidth s.configHeight] else []) ++
       (if s.vertices_changed then
          [GpuOp.write_vertex_buffer s.get_quad_size.1 s.get_quad_size.2] else []) ++
       (if ok then [GpuOp.submit_draw, GpuOp.present] else []),
       if ok then RenderResult.ok else RenderResult.err SurfaceError.acquireFailed) := by
  rcases s with ⟨fb, fbc, cw, ch, sc, tex, bg, vc⟩
  cases tex <;> cases fbc <;> cases sc <;> cases vc <;> cases ok <;>
    simp [Pixely.render, Pixely.recreate_texture, Pixely.upload_texture,
      Pixely.reconfigure_surface, Pixely.update_vertex_buffer,
      Pixely.get_quad_size, renderedState, hw, hh]

/-- Replacing pixel `i` changes exactly the 4-byte window at offset `4*i`
of the flattened byte view. -/
theorem flatMap_bytes_set (p : Pixel) :
    ∀ (l : List Pixel) (i : Nat), i < l.length →
      (l.set i p).flatMap Pixel.bytes =
        ((l.flatMap Pixel.bytes).take (4 * i) ++ p.bytes ++
          (l.flatMap Pixel.bytes).drop (4 * i + 4))
  | [], i, hi => absurd hi (by simp)
  | q :: t, 0, _ => by
      simp [Pixel.bytes]
  | q :: t, i + 1, hi => by
      have ih := flatMap_bytes_set p t i (by simpa using hi)
      simp only [List.set_cons_succ, List.flatMap_cons, ih]
      have h4 : (Pixel.bytes q).length = 4 := rfl
      rw [List.take_append_eq_append_take, List.drop_append_eq_append_drop,
        (List.take_of_length_le (by rw [h4]; omega) :
          List.take (4 * (i + 1)) (Pixel.bytes q) = Pixel.bytes q),
        (List.drop_eq_nil_of_le (by rw [h4]; omega) :
          List.drop (4 * (i + 1) + 4) (Pixel.bytes q) = []), h4]
      have e1 : 4 * (i + 1) - 4 = 4 * i := by omega
      have e2 : 4 * (i + 1) + 4 - 4 = 4 * i + 4 := by omega
      rw [e1, e2]
      simp [List.append_assoc]

/-! ## Claims -/

/-- The aspect-fit rule exactly as the spec words it: with
`frameAspect = fbH/fbW` and `heightOfWidth = sfW * frameAspect`, the
half-extents are `(1, heightOfWidth/sfH)` when `heightOfWidth ≤ sfH` and
`((sfH/frameAspect)/sfW, 1)` otherwise. -/
def quad_size_spec (fbW fbH sfW sfH : Nat) : ℚ × ℚ :=
  let frameAspect : ℚ := (fbH : ℚ) / (fbW : ℚ)
  let heightOfWidth : ℚ := (sfW : ℚ) * frameAspect
  if heightOfWidth ≤ (sfH : ℚ) then
    (1, heightOfWidth / (sfH : ℚ))
  else
    (((sfH : ℚ) / frameAspect) / (sfW : ℚ), 1)

/-- Claim C1: the claim says out-of-range `set_pixel` on a non-empty
buffer never panics and changes no cell; the code refutes it.  On a 1×1
buffer, `set_pixel(1, 0)` computes flat index 1 and the slice indexing
panics (`none` in the model).  On a 2×2 buffer, `set_pixel(2, 0)` has
`x ≥ width` yet flat index `0*2+2 = 2` is in range, so it silently
overwrites cell `(0, 1)`.  Only the zero-sized-buffer half of the claim
holds: there `set_pixel` is a no-op for every coordinate. -/
theorem set_pixel_out_of_range_behavior :
    (FrameBuffer.new 1 1).set_pixel 1 0 Pixel.black = none ∧
    (FrameBuffer.new 2 2).set_pixel 2 0 { red := 9, green := 9, blue := 9, alpha := 9 } =
      some { width := 2, height := 2,
             pixels := [Pixel.black, Pixel.black,
                        { red := 9, green := 9, blue := 9, alpha := 9 }, Pixel.black] } ∧
    ∀ (x y : Nat) (p : Pixel),
      (FrameBuffer.new 0 5).set_pixel x y p = some (FrameBuffer.new 0 5) := by
  refine ⟨by decide, by decide, fun x y p => ?_⟩
  simp [FrameBuffer.set_pixel, FrameBuffer.new]

/-- Claim C2: `get_quad_size` computes the aspect-fit half-extents per
the spec's formula (modelled over `ℚ`), and the two concrete test
vectors evaluate as claimed. -/
theorem get_quad_size_aspect_fit :
    (∀ s : Pixely, s.get_quad_size =
      quad_size_spec s.framebuffer.width s.framebuffer.height
        s.configWidth s.configHeight) ∧
    quadSize 100 50 200 200 = (1, 1 / 2) ∧
    quadSize 50 100 200 200 = (1 / 2, 1) := by
  refine ⟨fun s => rfl, ?_, ?_⟩ <;> norm_num [quadSize]

/-- Claim C3: with a zero-width or zero-height surface configuration,
`render` returns `Ok`, performs no GPU operation and leaves every field
of the state unchanged. -/
theorem render_zero_surface_noop (s : Pixely) (ok : Bool)
    (h : s.configWidth = 0 ∨ s.configHeight = 0) :
    s.render ok = (s, [], RenderResult.ok) :=
  render_zero s ok h

/-- Witness for C3 at a concrete zero-width state. -/
theorem render_zero_surface_noop_witness :
    (Pixely.new 1 1 0 5).render true = (Pixely.new 1 1 0 5, [], RenderResult.ok) :=
  render_zero_surface_noop (Pixely.new 1 1 0 5) true (Or.inl (by decide))

/-- Claim C4: with both surface dimensions nonzero, `render` performs
the flag-gated steps in order — texture and bind group creation exactly
when no texture exists, byte upload exactly when the texture was just
created or the content flag was set, surface reconfiguration exactly
when the surface flag was set, vertex recomputation and upload exactly
when the vertices flag was set — and afterwards a texture exists and all
three dirty flags are false. -/
theorem render_flag_gated_steps (s : Pixely) (ok : Bool)
    (hw : s.configWidth ≠ 0) (hh : s.configHeight ≠ 0) :
    (s.render ok).2.1 =
      (if s.texture.isNone then
        [GpuOp.create_texture s.framebuffer.width s.framebuffer.height,
         GpuOp.create_bind_group] else []) ++
      (if s.texture.isNone || s.framebuffer_changed then
        [GpuOp.write_texture s.framebuffer.as_bytes] else []) ++
      (if s.surface_changed then
        [GpuOp.configure_surface s.configWidth s.configHeight] else []) ++
      (if s.vertices_changed then
        [GpuOp.write_vertex_buffer s.get_quad_size.1 s.get_quad_size.2] else []) ++
      (if ok then [GpuOp.submit_draw, GpuOp.present] else []) ∧
    (s.render ok).1.texture.isSome = true ∧
    (s.render ok).1.framebuffer_changed = false ∧
    (s.render ok).1.surface_changed = false ∧
    (s.render ok).1.vertices_changed = false := by
  rw [render_pos s ok hw hh]
  simp [renderedState]

/-- Witness for C4 on a fresh state (texture absent, all flags set). -/
theorem render_flag_gated_steps_witness :
    ((Pixely.new 1 1 2 2).render true).2.1 =
      [GpuOp.create_texture 1 1, GpuOp.create_bind_group,
       GpuOp.write_texture [0, 0, 0, 255],
       GpuOp.configure_surface 2 2,
       GpuOp.write_vertex_buffer 1 1,
       GpuOp.submit_draw, GpuOp.present] ∧
    ((Pixely.new 1 1 2 2).render true).1.texture.isSome = true ∧
    ((Pixely.new 1 1 2 2).render true).1.framebuffer_changed = false ∧
    ((Pixely.new 1 1 2 2).render true).1.surface_changed = false ∧
    ((Pixely.new 1 1 2 2).render true).1.vertices_changed = false := by
  have h := render_flag_gated_steps (Pixely.new 1 1 2 2) true (by decide) (by decide)
  refine ⟨?_, h.2.1, h.2.2.1, h.2.2.2.1, h.2.2.2.2⟩
  rw [h.1]
  norm_num [Pixely.new, FrameBuffer.new, FrameBuffer.as_bytes, Pixel.black,
    Pixel.bytes, Pixely.get_quad_size, quadSize]

/-- Claim C5: construction and every mutator preserve the coupling of
texture and bind group (both absent or both present). -/
theorem texture_bind_group_coupled (s : Pixely)
    (bufW bufH winW winH w h w2 h2 : Nat) (ok : Bool)
    (hs : texBindCoupled s) :
    texBindCoupled (Pixely.new bufW bufH winW winH) ∧
    texBindCoupled s.buffer_mut ∧
    texBindCoupled (s.resize_framebuffer w h) ∧
    texBindCoupled (s.resize_surface w2 h2) ∧
    texBindCoupled (s.render ok).1 := by
  refine ⟨rfl, hs, rfl, hs, ?_⟩
  rcases Decidable.em (s.configWidth = 0 ∨ s.configHeight = 0) with hz | hz
  · rw [render_zero s ok hz]
    exact hs
  · push_neg at hz
    rw [render_pos s ok hz.1 hz.2]
    cases htex : s.texture with
    | none => simp [texBindCoupled, renderedState, htex]
    | some t =>
        have hb := hs
        simp [texBindCoupled, htex] at hb
        simp [texBindCoupled, renderedState, htex, hb]

/-- Witness for C5 on a fresh state. -/
theorem texture_bind_group_coupled_witness :
    texBindCoupled (Pixely.new 1 1 2 2) ∧
    texBindCoupled (Pixely.new 3 3 4 4).buffer_mut ∧
    texBindCoupled ((Pixely.new 3 3 4 4).resize_framebuffer 5 6) ∧
    texBindCoupled ((Pixely.new 3 3 4 4).resize_surface 7 8) ∧
    texBindCoupled ((Pixely.new 3 3 4 4).render true).1 :=
  texture_bind_group_coupled (Pixely.new 3 3 4 4) 1 1 2 2 5 6 7 8 true (by decide)

/-- Claim C6, counterexample to the claim as stated: at
`resize_framebuffer(2^32, 2^32)` the `usize` product wraps to 0, so the
freshly installed framebuffer has no cells at all — it is not a
black-filled buffer of the given dimensions. -/
theorem resize_framebuffer_overflow_cex :
    ((Pixely.new 1 1 2 2).resize_framebuffer (2 ^ 32) (2 ^ 32)).framebuffer.pixels = [] ∧
    ((Pixely.new 1 1 2 2).resize_framebuffer (2 ^ 32) (2 ^ 32)).framebuffer.pixels ≠
      List.replicate (2 ^ 32 * 2 ^ 32) Pixel.black := by
  have e : ((Pixely.new 1 1 2 2).resize_framebuffer (2 ^ 32) (2 ^ 32)).framebuffer.pixels
      = [] := by
    show List.replicate (2 ^ 32 * 2 ^ 32 % 2 ^ 64) Pixel.black = []
    norm_num
  refine ⟨e, ?_⟩
  rw [e]
  intro h
  have hl := congrArg List.length h
  simp only [List.length_nil, List.length_replicate] at hl
  norm_num at hl

/-- Claim C6 (amended: the requested dimensions must not overflow the
`usize` cell count): `resize_framebuffer` drops texture and bind group,
sets the vertices and content flags, and installs a fresh black-filled
framebuffer of the requested dimensions; nothing else changes. -/
theorem resize_framebuffer_spec (s : Pixely) (w h : Nat)
    (hprod : w * h < 2 ^ 64) :
    s.resize_framebuffer w h =
      { s with
          texture := none
          bind_group := none
          vertices_changed := true
          framebuffer_changed := true
          framebuffer := FrameBuffer.new w h } ∧
    (s.resize_framebuffer w h).framebuffer.pixels =
      List.replicate (w * h) Pixel.black := by
  refine ⟨rfl, ?_⟩
  show List.replicate (w * h % 2 ^ 64) Pixel.black = _
  rw [Nat.mod_eq_of_lt hprod]

/-- Witness for C6 at a concrete 3×4 resize. -/
theorem resize_framebuffer_spec_witness :
    (Pixely.new 1 1 2 2).resize_framebuffer 3 4 =
      { Pixely.new 1 1 2 2 with
          texture := none
          bind_group := none
          vertices_changed := true
          framebuffer_changed := true
          framebuffer := FrameBuffer.new 3 4 } ∧
    ((Pixely.new 1 1 2 2).resize_framebuffer 3 4).framebuffer.pixels =
      List.replicate (3 * 4) Pixel.black :=
  resize_framebuffer_spec (Pixely.new 1 1 2 2) 3 4 (by norm_num)

/-- Claim C7: `resize_surface` updates only the config dimensions and
the vertices/surface flags; texture, bind group, framebuffer and the
content flag are untouched. -/
theorem resize_surface_spec (s : Pixely) (w h : Nat) :
    s.resize_surface w h =
      { s with
          configWidth := w % 2 ^ 32
          configHeight := h % 2 ^ 32
          vertices_changed := true
          surface_changed := true } ∧
    (s.resize_surface w h).texture = s.texture ∧
    (s.resize_surface w h).bind_group = s.bind_group ∧
    (s.resize_surface w h).framebuffer = s.framebuffer ∧
    (s.resize_surface w h).framebuffer_changed = s.framebuffer_changed :=
  ⟨rfl, rfl, rfl, rfl, rfl⟩

/-- Claim C8: an in-bounds `set_pixel` succeeds and the byte view then
holds the color's channels in R,G,B,A order at offset `4*(y*width+x)`,
with every byte outside that 4-byte window unchanged. -/
theorem set_pixel_in_bounds_bytes (fb : FrameBuffer) (p : Pixel) (x y : Nat)
    (hlen : fb.pixels.length = fb.width * fb.height)
    (hx : x < fb.width) (hy : y < fb.height) :
    ∃ fb', fb.set_pixel x y p = some fb' ∧
      fb'.as_bytes =
        fb.as_bytes.take (4 * (y * fb.width + x)) ++
          [p.red, p.green, p.blue, p.alpha] ++
          fb.as_bytes.drop (4 * (y * fb.width + x) + 4) := by
  have hi : y * fb.width + x < fb.pixels.length := by
    rw [hlen]
    calc y * fb.width + x < (y + 1) * fb.width := by
          rw [Nat.succ_mul]; omega
      _ ≤ fb.height * fb.width := Nat.mul_le_mul_right _ (by omega)
      _ = fb.width * fb.height := Nat.mul_comm _ _
  have hne : fb.pixels.length ≠ 0 := by omega
  refine ⟨{ fb with pixels := fb.pixels.set (y * fb.width + x) p }, ?_, ?_⟩
  · simp [FrameBuffer.set_pixel, FrameBuffer.coord_to_index, hne, hi]
  · simpa [FrameBuffer.as_bytes, Pixel.bytes] using
      flatMap_bytes_set p fb.pixels (y * fb.width + x) hi

/-- Witness for C8: writing pixel (1,1) of a 2×2 buffer lands at byte
offset 12 and leaves the other 12 bytes alone. -/
theorem set_pixel_in_bounds_bytes_witness :
    ∃ fb', (FrameBuffer.new 2 2).set_pixel 1 1
        { red := 1, green := 2, blue := 3, alpha := 4 } = some fb' ∧
      fb'.as_bytes =
        (FrameBuffer.new 2 2).as_bytes.take (4 * (1 * 2 + 1)) ++
          [1, 2, 3, 4] ++
          (FrameBuffer.new 2 2).as_bytes.drop (4 * (1 * 2 + 1) + 4) :=
  set_pixel_in_bounds_bytes (FrameBuffer.new 2 2)
    { red := 1, green := 2, blue := 3, alpha := 4 } 1 1
    (by decide) (by decide) (by decide)

/-- Claim C9, counterexample to the claim as stated: at
`W = H = 2^32` the `usize` product `width * height` wraps to 0, so the
constructed buffer has no cells instead of `W*H` of them. -/
theorem framebuffer_new_overflow_cex :
    (FrameBuffer.new (2 ^ 32) (2 ^ 32)).pixels = [] ∧
    (FrameBuffer.new (2 ^ 32) (2 ^ 32)).pixels.length ≠ 2 ^ 32 * 2 ^ 32 := by
  constructor
  · show List.replicate (2 ^ 32 * 2 ^ 32 % 2 ^ 64) Pixel.black = []
    norm_num
  · show (List.replicate (2 ^ 32 * 2 ^ 32 % 2 ^ 64) Pixel.black).length ≠ _
    rw [List.length_replicate]
    norm_num

/-- Claim C9 (amended: for `W*H` below the `usize` wrap at `2^64`):
`FrameBuffer::new W H` yields width `W`, height `H`, and exactly `W*H`
cells all equal to black `{0,0,0,255}`. -/
theorem framebuffer_new_spec (W H : Nat) (hprod : W * H < 2 ^ 64) :
    (FrameBuffer.new W H).width = W ∧
    (FrameBuffer.new W H).height = H ∧
    (FrameBuffer.new W H).pixels.length = W * H ∧
    ∀ i : Fin (FrameBuffer.new W H).pixels.length,
      (FrameBuffer.new W H).pixels.get i = Pixel.black := by
  refine ⟨rfl, rfl, ?_, fun i => ?_⟩
  · simp only [FrameBuffer.new, List.length_replicate]
    exact Nat.mod_eq_of_lt hprod
  · simp [FrameBuffer.new]

/-- Witness for C9 at a concrete 2×3 buffer. -/
theorem framebuffer_new_spec_witness :
    (FrameBuffer.new 2 3).width = 2 ∧
    (FrameBuffer.new 2 3).height = 3 ∧
    (FrameBuffer.new 2 3).pixels.length = 2 * 3 ∧
    ∀ i : Fin (FrameBuffer.new 2 3).pixels.length,
      (FrameBuffer.new 2 3).pixels.get i = Pixel.black :=
  framebuffer_new_spec 2 3 (by norm_num)

/-- Claim C10: when the acquire step fails after the flag-gated updates,
`render` returns the error but the updates stand — the state equals the
successful-render state, the texture exists, the flags are clear, and an
immediately following render performs only the draw submission and
present. -/
theorem render_failure_keeps_updates (s : Pixely)
    (hw : s.configWidth ≠ 0) (hh : s.configHeight ≠ 0) :
    (s.render false).2.2 = RenderResult.err SurfaceError.acquireFailed ∧
    (s.render false).1 = (s.render true).1 ∧
    (s.render false).1.texture.isSome = true ∧
    (s.render false).1.framebuffer_changed = false ∧
    (s.render false).1.surface_changed = false ∧
    (s.render false).1.vertices_changed = false ∧
    ((s.render false).1.render true).2.1 =
      [GpuOp.submit_draw, GpuOp.present] := by
  rw [render_pos s false hw hh, render_pos s true hw hh]
  refine ⟨rfl, rfl, rfl, rfl, rfl, rfl, ?_⟩
  show ((renderedState s).render true).2.1 = _
  rw [render_pos (renderedState s) true hw hh]
  simp [renderedState]

/-- Witness for C10 on a fresh state with a 2×2 surface. -/
theorem render_failure_keeps_updates_witness :
    ((Pixely.new 1 1 2 2).render false).2.2 =
      RenderResult.err SurfaceError.acquireFailed ∧
    ((Pixely.new 1 1 2 2).render false).1 = ((Pixely.new 1 1 2 2).render true).1 ∧
    ((Pixely.new 1 1 2 2).render false).1.texture.isSome = true ∧
    ((Pixely.new 1 1 2 2).render false).1.framebuffer_changed = false ∧
    ((Pixely.new 1 1 2 2).render false).1.surface_changed = false ∧
    ((Pixely.new 1 1 2 2).render false).1.vertices_changed = false ∧
    (((Pixely.new 1 1 2 2).render false).1.render true).2.1 =
      [GpuOp.submit_draw, GpuOp.present] :=
  render_failure_keeps_updates (Pixely.new 1 1 2 2) (by decide) (by decide)
